import Mathlib

/-!
Shallow embedding of the playback state machine and sequencer of
`src/manim_presentation/present.py`, and of the slide-range validator of
`src/manim_slides/config.py`.

Machine integers are modelled as `Nat`/`Int`; the OpenCV video-capture
handle is modelled as a pair (number of frames, decode position); a read
returns the frame at the decode position and advances it, or fails when
the position has reached the frame count (cv2 `read` does not advance on
failure). The Python attribute `lastframe`, which is never initialised in
`Presentation.__init__`, is modelled as an `Option`; a return statement
that would access it while unset is modelled as an `Except.error`
(Python raises `AttributeError` there).
-/

namespace ManimPresentation

/-- The `State` enum of present.py (PLAYING / PAUSED / WAIT / END). -/
inductive State where
  | Playing
  | Paused
  | Wait
  | End
deriving DecidableEq, Repr

/-- The slide `type` field: "slide", "loop" or "last" (config.py `SlideType`). -/
inductive SlideType where
  | slide
  | loop
  | last
deriving DecidableEq, Repr

/-- One slide record of the deck configuration. In the Python code a slide is
a dict; the `terminated` key is only ever created on the deck's final slide,
here it is a field present on every record (read only where the code reads
it). -/
structure Slide where
  type : SlideType
  start_animation : Nat
  end_animation : Nat
  number : Nat
  terminated : Bool
deriving DecidableEq, Repr

instance : Inhabited Slide :=
  ⟨{ type := SlideType.slide, start_animation := 0, end_animation := 0,
     number := 0, terminated := false }⟩

/-- A `cv2.VideoCapture` handle, reduced to what the core uses: how many
frames the file holds and the current decode position. -/
structure Cap where
  nframes : Nat
  pos : Nat
deriving DecidableEq, Repr

instance : Inhabited Cap := ⟨{ nframes := 0, pos := 0 }⟩

/-- A frame is identified by the animation index it was read from and the
decode position it was read at. -/
abbrev Frame : Type := Nat × Nat

/-- `cap.read()`: succeed with the frame at `pos` and advance, or fail
leaving the handle unchanged. -/
def Cap.read (c : Cap) : Option Nat × Cap :=
  if c.pos < c.nframes then (some c.pos, { c with pos := c.pos + 1 })
  else (none, c)

/-- `cap.set(cv2.CAP_PROP_POS_FRAMES, 0)`: seek to the first frame. -/
def Cap.seekStart (c : Cap) : Cap := { c with pos := 0 }

/-- The `Presentation` object of present.py: one deck. -/
structure Presentation where
  slides : List Slide
  caps : List Cap
  current_animation : Nat
  current_slide_i : Nat
  lastframe : Option Frame
deriving DecidableEq, Repr

instance : Inhabited Presentation :=
  ⟨{ slides := [], caps := [], current_animation := 0, current_slide_i := 0,
     lastframe := none }⟩

/-- `slides[-1]["terminated"] = b`. On an empty list this is a no-op (the
constructor guarantees a non-empty list in the program). -/
def setLastTerminated (ss : List Slide) (b : Bool) : List Slide :=
  ss.set (ss.length - 1) { ss.getD (ss.length - 1) default with terminated := b }

/-- `self.current_slide` (property): `self.slides[self.current_slide_i]`. -/
def Presentation.current_slide (p : Presentation) : Slide :=
  p.slides.getD p.current_slide_i default

/-- `self.current_cap` (property): `self.caps[self.current_animation]`. -/
def Presentation.current_cap (p : Presentation) : Cap :=
  p.caps.getD p.current_animation default

/-- `Presentation.reset`: zero both cursor fields and clear the last slide's
`terminated` flag. No capture handle is touched. -/
def Presentation.reset (p : Presentation) : Presentation :=
  { p with current_animation := 0, current_slide_i := 0,
           slides := setLastTerminated p.slides false }

/-- `Presentation.rewind`: set `current_animation` to the current slide's
`start_animation`, then seek that capture to its first frame. -/
def Presentation.rewind (p : Presentation) : Presentation :=
  let a := p.current_slide.start_animation
  { p with current_animation := a,
           caps := p.caps.set a ((p.caps.getD a default).seekStart) }

/-- `Presentation.next`: on a "last"-typed slide set its `terminated` flag
(the slide index does not move); otherwise advance the slide index, clamped
to the final slide, and rewind. -/
def Presentation.next (p : Presentation) : Presentation :=
  if p.current_slide.type = SlideType.last then
    { p with slides := p.slides.set p.current_slide_i
               { p.current_slide with terminated := true } }
  else
    Presentation.rewind
      { p with current_slide_i := min (p.slides.length - 1) (p.current_slide_i + 1) }

/-- `Presentation.prev`: move the slide index back by one, clamped at zero
(`max(0, i - 1)` is `Nat` subtraction), and rewind. -/
def Presentation.prev (p : Presentation) : Presentation :=
  Presentation.rewind { p with current_slide_i := p.current_slide_i - 1 }

/-- Lines 88-90 of `update_state`: read from the current capture, store the
updated handle back, and cache the frame as `lastframe` if the read
succeeded. -/
def Presentation.readStep (p : Presentation) : Option Nat × Presentation :=
  let r := p.current_cap.read
  let p1 := { p with caps := p.caps.set p.current_animation r.2 }
  match r.1 with
  | some fr => (some fr, { p1 with lastframe := some (p.current_animation, fr) })
  | none => (none, p1)

/-- The message of the `AttributeError` raised when `self.lastframe` is read
before any successful frame read ever assigned it. -/
def attrErr : String := "AttributeError: Presentation object has no attribute lastframe"

/-- `return self.lastframe, state`: fails when `lastframe` was never
assigned. -/
def Presentation.retLast (p : Presentation) (st : State) :
    Except String ((Frame × State) × Presentation) :=
  match p.lastframe with
  | some f => Except.ok ((f, st), p)
  | none => Except.error attrErr

/-- `Presentation.update_state` (present.py lines 87-114), translated branch
by branch: read first; return unchanged on incoming Wait/Paused; then the
terminated-last-slide check returning End; then the exhaustion transitions
(slide -> Wait, loop -> reset to start and rewind with Playing, last -> Wait),
the degenerate `end_animation == current_animation` check on a "last" slide,
and otherwise advance to the next segment and seek it to its first frame. -/
def Presentation.update_state (p : Presentation) (state : State) :
    Except String ((Frame × State) × Presentation) :=
  let r := p.readStep
  let p1 := r.2
  if state = State.Wait ∨ state = State.Paused then p1.retLast state
  else if p1.current_slide.type = SlideType.last ∧ p1.current_slide.terminated then
    p1.retLast State.End
  else
    if r.1.isSome = false then
      if p1.current_slide.end_animation = p1.current_animation + 1 then
        match p1.current_slide.type with
        | SlideType.slide => p1.retLast State.Wait
        | SlideType.loop =>
            Presentation.retLast
              (Presentation.rewind
                { p1 with current_animation := p1.current_slide.start_animation })
              State.Playing
        | SlideType.last => p1.retLast State.Wait
      else if p1.current_slide.type = SlideType.last ∧
              p1.current_slide.end_animation = p1.current_animation then
        p1.retLast State.Wait
      else
        let p2 := { p1 with current_animation := p1.current_animation + 1 }
        Presentation.retLast
          { p2 with caps := p2.caps.set p2.current_animation
                      ((p2.caps.getD p2.current_animation default).seekStart) }
          state
    else p1.retLast state

/-- `Presentation.__init__`: store slides and files, reset, open one capture
per file (decode position 0), then coerce the final slide's type to "last"
and its `terminated` flag to false. A file is modelled by its frame count. -/
def Presentation.ofConfig (slides : List Slide) (files : List Nat) : Presentation :=
  { slides := (setLastTerminated slides false).set (slides.length - 1)
      { (setLastTerminated slides false).getD (slides.length - 1) default with
          type := SlideType.last, terminated := false }
    caps := files.map fun n => { nframes := n, pos := 0 }
    current_animation := 0
    current_slide_i := 0
    lastframe := none }

/-- Projection: the state carried by a successful `update_state` result. -/
def stateOf (r : Except String ((Frame × State) × Presentation)) : Option State :=
  match r with
  | Except.ok ((_, s), _) => some s
  | Except.error _ => none

/-- Projection: the deck carried by a successful `update_state` result. -/
def presOf (r : Except String ((Frame × State) × Presentation)) : Option Presentation :=
  match r with
  | Except.ok (_, p) => some p
  | Except.error _ => none

/-- The `terminated` flag of the deck's final slide (`slides[-1]`). -/
def lastTerminated (p : Presentation) : Bool :=
  (p.slides.getD (p.slides.length - 1) default).terminated

/-- The `Display` object: sequencer over several decks. Only the fields the
Back command touches are modelled. -/
structure Display where
  presentations : List Presentation
  current_presentation_i : Nat
  state : State
deriving DecidableEq, Repr

/-- `self.current_presentation` (property). -/
def Display.current_presentation (d : Display) : Presentation :=
  d.presentations.getD d.current_presentation_i default

/-- The `BACK_KEY` branch of `Display.handle_key` (present.py lines
216-223): when the active deck sits on its first slide, step the deck index
back (clamped at zero), reset the deck now active, and force Playing;
otherwise delegate to the active deck's `prev()` and force Playing. -/
def Display.handle_back (d : Display) : Display :=
  if d.current_presentation.current_slide_i = 0 then
    let d1 := { d with current_presentation_i := d.current_presentation_i - 1 }
    { d1 with
        presentations := d1.presentations.set d1.current_presentation_i
          d1.current_presentation.reset
        state := State.Playing }
  else
    { d with
        presentations := d.presentations.set d.current_presentation_i
          d.current_presentation.prev
        state := State.Playing }

/-- `fix_time` (present.py line 34): clamp a wait duration to at least 1. -/
def fix_time (x : Int) : Int := if x > 0 then x else 1

/-- `math.ceil(1000 / fps)` (present.py line 202), the target tick interval. -/
def sleepTime (fps : ℚ) : Int := Int.ceil (1000 / fps)

/-- The argument of `cv2.waitKey` each tick (present.py line 203):
`fix_time(sleep_time - lag)`. -/
def waitBudget (fps : ℚ) (lag : Int) : Int := fix_time (sleepTime fps - lag)

/-- Error message of the degenerate zero-range case of the validator
(config.py line 130, abridged). -/
def zeroRangeMsg : String :=
  "You have to play at least one animation before pausing"

/-- Error message of the generic ordering violation (config.py line 134). -/
def orderMsg : String :=
  "Start animation index must be strictly lower than end animation index"

/-- `SlideConfig.start_animation_is_before_end` (config.py lines 123-137):
reject `start_animation >= end_animation`, with a distinct message when both
are zero. -/
def start_animation_is_before_end (start_anim end_anim : Int) : Except String Unit :=
  if start_anim ≥ end_anim then
    if start_anim = 0 ∧ end_anim = 0 then Except.error zeroRangeMsg
    else Except.error orderMsg
  else Except.ok ()

/-- Example deck: two slides (a sequential slide over segments [0,2) and the
terminal slide over [2,3)), three segments of four frames each, cursor on the
terminal slide. -/
def exDeckA : Presentation :=
  { slides := [{ type := SlideType.slide, start_animation := 0, end_animation := 2,
                 number := 1, terminated := false },
               { type := SlideType.last, start_animation := 2, end_animation := 3,
                 number := 2, terminated := false }]
    caps := [{ nframes := 4, pos := 0 }, { nframes := 4, pos := 0 },
             { nframes := 4, pos := 0 }]
    current_animation := 2
    current_slide_i := 1
    lastframe := some (0, 0) }

/-- `exDeckA` with the cursor on its first slide. -/
def exDeckA0 : Presentation :=
  { exDeckA with current_slide_i := 0, current_animation := 0 }

/-- Example single-slide deck whose terminal slide is already terminated. -/
def exTerm : Presentation :=
  { slides := [{ type := SlideType.last, start_animation := 0, end_animation := 1,
                 number := 1, terminated := true }]
    caps := [{ nframes := 5, pos := 0 }]
    current_animation := 0
    current_slide_i := 0
    lastframe := some (0, 0) }

/-- Example deck sitting on a loop slide whose single segment is exhausted
(decode position has reached the frame count). -/
def exLoop : Presentation :=
  { slides := [{ type := SlideType.loop, start_animation := 0, end_animation := 1,
                 number := 1, terminated := false },
               { type := SlideType.last, start_animation := 1, end_animation := 2,
                 number := 2, terminated := false }]
    caps := [{ nframes := 3, pos := 3 }, { nframes := 3, pos := 0 }]
    current_animation := 0
    current_slide_i := 0
    lastframe := some (0, 2) }

/-- Example deck on its first slide with a nonzero `start_animation` and a
partially consumed segment, distinguishing `reset()` from `prev()`. -/
def exBackDeck : Presentation :=
  { slides := [{ type := SlideType.slide, start_animation := 5, end_animation := 6,
                 number := 1, terminated := false },
               { type := SlideType.last, start_animation := 6, end_animation := 7,
                 number := 2, terminated := false }]
    caps := [{ nframes := 9, pos := 0 }, { nframes := 9, pos := 0 },
             { nframes := 9, pos := 0 }, { nframes := 9, pos := 0 },
             { nframes := 9, pos := 0 }, { nframes := 9, pos := 3 },
             { nframes := 9, pos := 0 }]
    current_animation := 5
    current_slide_i := 0
    lastframe := some (5, 1) }

/-- Sequencer with a single deck, active index 0, on the deck's first slide. -/
def exBackDisplay : Display :=
  { presentations := [exBackDeck], current_presentation_i := 0,
    state := State.Playing }

/-! ## Helper lemmas -/

theorem getD_set_self {α : Type} (l : List α) (i : Nat) (x d : α)
    (h : i < l.length) : (l.set i x).getD i d = x := by
  rw [List.getD_eq_getElem _ _ (by simpa using h)]
  simp [List.getElem_set_self]

theorem getD_set_ne {α : Type} (l : List α) (i j : Nat) (x d : α)
    (h : i ≠ j) : (l.set i x).getD j d = l.getD j d := by
  simp [List.getD_eq_getD_get?, List.get?_eq_getElem?, List.getElem?_set_ne h]

theorem readStep_fst (p : Presentation) : (p.readStep).1 = (p.current_cap.read).1 := by
  unfold Presentation.readStep
  cases h : (p.current_cap.read).1 <;> simp [h]

theorem readStep_slides (p : Presentation) : (p.readStep).2.slides = p.slides := by
  unfold Presentation.readStep
  cases h : (p.current_cap.read).1 <;> simp [h]

theorem readStep_slide_i (p : Presentation) :
    (p.readStep).2.current_slide_i = p.current_slide_i := by
  unfold Presentation.readStep
  cases h : (p.current_cap.read).1 <;> simp [h]

theorem readStep_anim (p : Presentation) :
    (p.readStep).2.current_animation = p.current_animation := by
  unfold Presentation.readStep
  cases h : (p.current_cap.read).1 <;> simp [h]

theorem readStep_caps (p : Presentation) :
    (p.readStep).2.caps = p.caps.set p.current_animation (p.current_cap.read).2 := by
  unfold Presentation.readStep
  cases h : (p.current_cap.read).1 <;> simp [h]

theorem readStep_current_slide (p : Presentation) :
    (p.readStep).2.current_slide = p.current_slide := by
  unfold Presentation.current_slide
  rw [readStep_slides, readStep_slide_i]

theorem readStep_lastframe_isSome (p : Presentation) (h : p.lastframe.isSome) :
    (p.readStep).2.lastframe.isSome := by
  unfold Presentation.readStep
  cases hr : (p.current_cap.read).1 <;> simp [hr, h]

theorem readStep_lastframe_none (p : Presentation) (hlf : p.lastframe = none)
    (hr : (p.current_cap.read).1 = none) : (p.readStep).2.lastframe = none := by
  unfold Presentation.readStep
  simp [hr, hlf]

theorem retLast_ok (p : Presentation) (st : State) (x : (Frame × State) × Presentation)
    (h : p.retLast st = Except.ok x) : x.1.2 = st ∧ x.2 = p := by
  unfold Presentation.retLast at h
  cases hlf : p.lastframe with
  | none => rw [hlf] at h; exact absurd h (by simp)
  | some f =>
      rw [hlf] at h
      have : ((f, st), p) = x := by injection h
      subst this
      exact ⟨rfl, rfl⟩

theorem retLast_none (p : Presentation) (st : State) (h : p.lastframe = none) :
    p.retLast st = Except.error attrErr := by
  unfold Presentation.retLast
  rw [h]

theorem stateOf_retLast (p : Presentation) (st : State) (h : p.lastframe.isSome) :
    stateOf (p.retLast st) = some st := by
  unfold Presentation.retLast stateOf
  cases hlf : p.lastframe with
  | none => rw [hlf] at h; simp at h
  | some f => simp

theorem rewind_lastframe (p : Presentation) : (p.rewind).lastframe = p.lastframe := rfl

theorem rewind_slides (p : Presentation) : (p.rewind).slides = p.slides := rfl

theorem rewind_current_cap_pos (p : Presentation) : ((p.rewind).current_cap).pos = 0 := by
  unfold Presentation.rewind Presentation.current_cap
  by_cases h : p.current_slide.start_animation < p.caps.length
  · rw [getD_set_self _ _ _ _ h]
    rfl
  · rw [List.getD_eq_default]
    · rfl
    · simpa using Nat.le_of_not_lt h

theorem lastTerminated_reset (p : Presentation) : lastTerminated p.reset = false := by
  unfold lastTerminated Presentation.reset setLastTerminated
  rcases Nat.eq_zero_or_pos p.slides.length with h | h
  · have hnil : p.slides = [] := List.length_eq_zero.mp h
    simp [hnil]
    rfl
  · simp only [List.length_set]
    rw [getD_set_self _ _ _ _ (by omega)]

/-- Core of the terminated-check: with the cursor on a "last"-typed slide
whose `terminated` flag is set and a cached last frame, `update_state` in
`Playing` returns `End`. -/
theorem end_of_terminated (p : Presentation)
    (ht : p.current_slide.type = SlideType.last)
    (hterm : p.current_slide.terminated = true)
    (hlf : p.lastframe.isSome) :
    stateOf (p.update_state State.Playing) = some State.End := by
  have hcond : (p.readStep).2.current_slide.type = SlideType.last ∧
      (p.readStep).2.current_slide.terminated = true := by
    rw [readStep_current_slide]
    exact ⟨ht, hterm⟩
  simp only [Presentation.update_state]
  rw [if_neg (by simp), if_pos hcond]
  exact stateOf_retLast _ _ (readStep_lastframe_isSome p hlf)

theorem presOf_retLast (p : Presentation) (st : State) (h : p.lastframe.isSome) :
    presOf (p.retLast st) = some p := by
  unfold Presentation.retLast presOf
  cases hlf : p.lastframe with
  | none => rw [hlf] at h; simp at h
  | some f => simp

theorem update_state_error_of_none (p : Presentation) (st : State)
    (hlf : p.lastframe = none) (hr : (p.current_cap.read).1 = none) :
    p.update_state st = Except.error attrErr := by
  have h1 : (p.readStep).2.lastframe = none := readStep_lastframe_none p hlf hr
  simp only [Presentation.update_state]
  split
  · exact retLast_none _ _ h1
  · split
    · exact retLast_none _ _ h1
    · split
      · split
        · split
          · exact retLast_none _ _ h1
          · exact retLast_none _ _ (by rw [rewind_lastframe]; exact h1)
          · exact retLast_none _ _ h1
        · split
          · exact retLast_none _ _ h1
          · exact retLast_none _ _ h1
      · exact retLast_none _ _ h1

theorem next_last_fields (p : Presentation)
    (h : p.current_slide.type = SlideType.last) :
    (p.next).slides = p.slides.set p.current_slide_i
        { p.current_slide with terminated := true } ∧
    (p.next).current_slide_i = p.current_slide_i ∧
    (p.next).lastframe = p.lastframe := by
  unfold Presentation.next
  rw [if_pos h]
  exact ⟨rfl, rfl, rfl⟩

theorem next_notlast_fields (p : Presentation)
    (h : ¬(p.current_slide.type = SlideType.last)) :
    (p.next).slides = p.slides ∧
    (p.next).current_slide_i = min (p.slides.length - 1) (p.current_slide_i + 1) ∧
    (p.next).lastframe = p.lastframe := by
  unfold Presentation.next
  rw [if_neg h]
  exact ⟨rfl, rfl, rfl⟩

theorem prev_fields (p : Presentation) :
    (p.prev).slides = p.slides ∧
    (p.prev).current_slide_i = p.current_slide_i - 1 ∧
    (p.prev).lastframe = p.lastframe :=
  ⟨rfl, rfl, rfl⟩

/-! ## Claim theorems -/

/-- Claim C6: each tick's blocking wait duration is
`max(1, ceil(1000 / active_fps) - lag)`; it is at least 1 for every value of
the lag, and for fps = 30 (target interval 34) any lag of at least 34 gives
exactly 1. -/
theorem frame_clock_wait_budget (fps : ℚ) (lag : Int) :
    waitBudget fps lag = max 1 (sleepTime fps - lag) ∧
    1 ≤ waitBudget fps lag ∧
    (fps = 30 → 34 ≤ lag → waitBudget fps lag = 1) := by
  refine ⟨?_, ?_, ?_⟩
  · unfold waitBudget fix_time
    split <;> omega
  · unfold waitBudget fix_time
    split <;> omega
  · intro hf hl
    subst hf
    have h34 : sleepTime 30 = 34 := by
      unfold sleepTime
      norm_num [Int.ceil_eq_iff]
    unfold waitBudget fix_time
    rw [h34]
    split <;> omega

/-- Witness for C6 at fps = 30, lag = 40. -/
theorem frame_clock_wait_budget_witness :
    waitBudget 30 40 = 1 ∧ 1 ≤ waitBudget 30 40 :=
  ⟨(frame_clock_wait_budget 30 40).2.2 rfl (by norm_num),
   (frame_clock_wait_budget 30 40).2.1⟩

/-- Claim C7: slide-range validation rejects every configuration with
`start_animation >= end_animation`; the case where both are zero carries the
distinct play-at-least-one-animation message, every other violation carries
the generic ordering message, and `start_animation < end_animation` passes;
the two messages are distinct. -/
theorem slide_range_validator (s e : Int) :
    (e ≤ s → ∃ msg, start_animation_is_before_end s e = Except.error msg) ∧
    (e ≤ s → ¬(s = 0 ∧ e = 0) →
       start_animation_is_before_end s e = Except.error orderMsg) ∧
    (s = 0 → e = 0 → start_animation_is_before_end s e = Except.error zeroRangeMsg) ∧
    (s < e → start_animation_is_before_end s e = Except.ok ()) ∧
    zeroRangeMsg ≠ orderMsg := by
  refine ⟨?_, ?_, ?_, ?_, by decide⟩
  · intro hle
    unfold start_animation_is_before_end
    rw [if_pos hle]
    by_cases hz : s = 0 ∧ e = 0
    · exact ⟨zeroRangeMsg, by rw [if_pos hz]⟩
    · exact ⟨orderMsg, by rw [if_neg hz]⟩
  · intro hle hz
    unfold start_animation_is_before_end
    rw [if_pos hle, if_neg hz]
  · intro hs he
    subst hs; subst he
    rfl
  · intro hlt
    unfold start_animation_is_before_end
    rw [if_neg (by omega)]

/-- Witness for C7 at (0,0), (2,1) and (0,1). -/
theorem slide_range_validator_witness :
    start_animation_is_before_end 0 0 = Except.error zeroRangeMsg ∧
    start_animation_is_before_end 2 1 = Except.error orderMsg ∧
    start_animation_is_before_end 0 1 = Except.ok () :=
  ⟨(slide_range_validator 0 0).2.2.1 rfl rfl,
   (slide_range_validator 2 1).2.1 (by omega) (by decide),
   (slide_range_validator 0 1).2.2.2.1 (by omega)⟩

/-- Claim C10: `reset()` zeroes both cursor fields and clears `terminated`
but, unlike `rewind()`, leaves every capture handle's decode position
untouched, so the next read of segment 0 resumes from the position it was
left at; `rewind()` by contrast seeks the current slide's first segment to
its first frame. -/
theorem reset_keeps_decode_positions (p : Presentation) :
    (p.reset).caps = p.caps ∧
    (p.reset).current_slide_i = 0 ∧
    (p.reset).current_animation = 0 ∧
    lastTerminated p.reset = false ∧
    (p.reset).current_cap = p.caps.getD 0 default ∧
    (p.rewind).caps = p.caps.set p.current_slide.start_animation
      ((p.caps.getD p.current_slide.start_animation default).seekStart) := by
  exact ⟨rfl, rfl, rfl, lastTerminated_reset p, rfl, rfl⟩

/-- Claim C5: `next()` on the deck's "last"-typed slide sets its
`terminated` flag and leaves the slide index unchanged; on any other slide
it sets the index to `min(i + 1, last index)` and then rewinds, setting
`current_animation` to the new slide's `start_animation` and seeking that
segment to its first frame. -/
theorem next_semantics :
    (∀ p : Presentation, p.current_slide_i < p.slides.length →
       p.current_slide.type = SlideType.last →
       (p.next).current_slide_i = p.current_slide_i ∧
       (p.next).current_slide.terminated = true ∧
       (p.next).current_animation = p.current_animation) ∧
    (∀ p : Presentation, p.current_slide.type ≠ SlideType.last →
       (p.next).current_slide_i = min (p.slides.length - 1) (p.current_slide_i + 1) ∧
       (p.next).current_animation =
         (p.slides.getD (min (p.slides.length - 1) (p.current_slide_i + 1))
            default).start_animation ∧
       ((p.next).current_cap).pos = 0) := by
  constructor
  · intro p hlen ht
    unfold Presentation.next
    rw [if_pos ht]
    refine ⟨rfl, ?_, rfl⟩
    unfold Presentation.current_slide
    exact congrArg Slide.terminated
      (getD_set_self p.slides p.current_slide_i _ default (by simpa using hlen))
  · intro p ht
    unfold Presentation.next
    rw [if_neg ht]
    exact ⟨rfl, rfl, rewind_current_cap_pos _⟩

/-- Witness for C5: the terminal branch at `exDeckA`, the advancing branch
at `exDeckA0`. -/
theorem next_semantics_witness :
    ((exDeckA.next).current_slide_i = 1 ∧
     (exDeckA.next).current_slide.terminated = true) ∧
    ((exDeckA0.next).current_slide_i = 1 ∧
     ((exDeckA0.next).current_cap).pos = 0) := by
  have h1 := next_semantics.1 exDeckA (by decide) (by decide)
  have h2 := next_semantics.2 exDeckA0 (by decide)
  exact ⟨⟨h1.1, h1.2.1⟩, ⟨h2.1, h2.2.2⟩⟩

/-- Claim C3: with incoming state Wait or Paused, `update_state` returns the
incoming state and leaves both cursor fields unchanged — no transition rule
is reached — while the frame read still happens first: the stored captures
are exactly the captures after one `read()` on the current segment, which
advances that segment's decode position when it still has frames. -/
theorem wait_paused_preserved (p : Presentation) (st : State)
    (h : st = State.Wait ∨ st = State.Paused) :
    p.update_state st = (p.readStep).2.retLast st ∧
    (p.readStep).2.current_slide_i = p.current_slide_i ∧
    (p.readStep).2.current_animation = p.current_animation ∧
    (p.readStep).2.caps = p.caps.set p.current_animation (p.current_cap.read).2 ∧
    (∀ x, p.update_state st = Except.ok x → x.1.2 = st) := by
  have heq : p.update_state st = (p.readStep).2.retLast st := by
    simp only [Presentation.update_state]
    rw [if_pos h]
  refine ⟨heq, readStep_slide_i p, readStep_anim p, readStep_caps p, ?_⟩
  intro x hx
  rw [heq] at hx
  exact (retLast_ok _ _ _ hx).1

/-- Witness for C3 at `exDeckA` with incoming Wait. -/
theorem wait_paused_preserved_witness :
    exDeckA.update_state State.Wait = (exDeckA.readStep).2.retLast State.Wait ∧
    (exDeckA.readStep).2.current_slide_i = exDeckA.current_slide_i ∧
    (exDeckA.readStep).2.current_animation = exDeckA.current_animation := by
  have h := wait_paused_preserved exDeckA State.Wait (Or.inl rfl)
  exact ⟨h.1, h.2.1, h.2.2.1⟩

/-- Counterexample to claim C1 as stated: on a deck whose (single, hence
last) slide is "last"-typed with `terminated = true`, `update_state` called
with incoming state Wait returns Wait, not Ended — the Wait/Paused check is
evaluated before the terminated check. -/
theorem wait_overrides_terminated_check :
    lastTerminated exTerm = true ∧
    exTerm.current_slide.type = SlideType.last ∧
    exTerm.current_slide_i = exTerm.slides.length - 1 ∧
    stateOf (exTerm.update_state State.Wait) = some State.Wait ∧
    stateOf (exTerm.update_state State.Wait) ≠ some State.End := by decide

/-- Claim C1 as amended: when the incoming state is Playing (the Wait/Paused
check precedes and would otherwise return the incoming state unchanged) and
the cursor is on the "last"-typed slide with `terminated` set, `update_state`
returns Ended regardless of whether the frame read succeeds; consequently,
right after `next()` on the terminal slide, an `update_state` call with
incoming Playing returns Ended. -/
theorem terminated_last_yields_end :
    (∀ p : Presentation, p.current_slide.type = SlideType.last →
       p.current_slide.terminated = true →
       p.lastframe.isSome →
       stateOf (p.update_state State.Playing) = some State.End) ∧
    (∀ p : Presentation, p.current_slide.type = SlideType.last →
       p.lastframe.isSome →
       stateOf ((p.next).update_state State.Playing) = some State.End) := by
  constructor
  · exact fun p ht hterm hlf => end_of_terminated p ht hterm hlf
  · intro p ht hlf
    have hlt : p.current_slide_i < p.slides.length := by
      by_contra hge
      have hd : p.current_slide = default := by
        unfold Presentation.current_slide
        exact List.getD_eq_default _ _ (Nat.le_of_not_lt hge)
      rw [hd] at ht
      exact absurd ht (by decide)
    have hfields : (p.next).current_slide =
        { p.current_slide with terminated := true } := by
      unfold Presentation.next
      rw [if_pos ht]
      unfold Presentation.current_slide
      exact getD_set_self p.slides p.current_slide_i _ default (by simpa using hlt)
    have hlf' : (p.next).lastframe.isSome := by
      unfold Presentation.next
      rw [if_pos ht]
      exact hlf
    refine end_of_terminated (p.next) ?_ ?_ hlf'
    · rw [hfields]
      exact ht
    · rw [hfields]

/-- Witness for the amended C1: part one at `exTerm` (already terminated),
part two at `exDeckA` (terminal slide, `next()` terminates it). -/
theorem terminated_last_yields_end_witness :
    stateOf (exTerm.update_state State.Playing) = some State.End ∧
    stateOf ((exDeckA.next).update_state State.Playing) = some State.End :=
  ⟨terminated_last_yields_end.1 exTerm (by decide) (by decide) (by decide),
   terminated_last_yields_end.2 exDeckA (by decide) (by decide)⟩

/-- Counterexample to claim C2 as stated: with `active_index = 0` and the
active deck on slide index 0, the Back command is NOT delegated to `prev()`;
the branch on `current_slide_i == 0` fires regardless of the deck index, and
the active deck is `reset()` instead (observably different: `reset` zeroes
`current_animation` and seeks nothing, `prev` would rewind to the slide's
`start_animation` and seek its segment). -/
theorem back_at_first_deck_resets_not_prev :
    exBackDisplay.current_presentation_i = 0 ∧
    exBackDisplay.current_presentation.current_slide_i = 0 ∧
    (exBackDisplay.handle_back).current_presentation ≠
      exBackDisplay.current_presentation.prev ∧
    (exBackDisplay.handle_back).current_presentation =
      exBackDisplay.current_presentation.reset := by decide

/-- Claim C2 as amended: on a Back command, if the active deck's
`current_slide_index` is 0 then — whatever the value of `active_index` —
`active_index` decreases by one clamped at zero, the deck at the resulting
index (the active deck itself when `active_index` was 0) is `reset()`, and
the state is forced to Playing; only when `current_slide_index > 0` is the
command delegated to the active deck's `prev()` (state also forced to
Playing). -/
theorem back_command_semantics (d : Display)
    (hlen : d.current_presentation_i < d.presentations.length) :
    (d.current_presentation.current_slide_i = 0 →
       (d.handle_back).current_presentation_i = d.current_presentation_i - 1 ∧
       (d.handle_back).current_presentation =
         (d.presentations.getD (d.current_presentation_i - 1) default).reset ∧
       (d.handle_back).state = State.Playing) ∧
    (d.current_presentation.current_slide_i ≠ 0 →
       (d.handle_back).current_presentation_i = d.current_presentation_i ∧
       (d.handle_back).current_presentation = d.current_presentation.prev ∧
       (d.handle_back).state = State.Playing) := by
  constructor
  · intro h0
    unfold Display.handle_back
    rw [if_pos h0]
    refine ⟨rfl, ?_, rfl⟩
    unfold Display.current_presentation
    exact getD_set_self d.presentations (d.current_presentation_i - 1) _ default
      (by omega)
  · intro h0
    unfold Display.handle_back
    rw [if_neg h0]
    refine ⟨rfl, ?_, rfl⟩
    unfold Display.current_presentation
    exact getD_set_self d.presentations d.current_presentation_i _ default hlen

/-- Witness for the amended C2: the reset branch at `exBackDisplay` (slide
index 0) and the prev branch at the same sequencer moved to slide index 1. -/
theorem back_command_semantics_witness :
    ((exBackDisplay.handle_back).current_presentation_i = 0 ∧
     (exBackDisplay.handle_back).state = State.Playing) ∧
    (({ exBackDisplay with
          presentations := [{ exBackDeck with current_slide_i := 1 }] }.handle_back).current_presentation =
       { exBackDeck with current_slide_i := 1 }.prev) := by
  have h1 := (back_command_semantics exBackDisplay (by decide)).1 (by decide)
  have h2 := (back_command_semantics
    { exBackDisplay with
        presentations := [{ exBackDeck with current_slide_i := 1 }] }
    (by decide)).2 (by decide)
  exact ⟨⟨h1.1, h1.2.2⟩, h2.2.1⟩

/-- Claim C8: the cached last frame is never initialised at deck
construction and every return path of `update_state` reads it, so on any
freshly constructed deck whose very first read fails (first segment holds no
frames), the first `update_state` call — whatever the incoming state — fails
with the attribute error instead of returning a (frame, state) pair. -/
theorem first_update_state_attribute_error (slides : List Slide)
    (files : List Nat) (st : State) (h : files.getD 0 0 = 0) :
    (Presentation.ofConfig slides files).update_state st = Except.error attrErr := by
  apply update_state_error_of_none
  · rfl
  · have hc : (Presentation.ofConfig slides files).current_cap =
        { nframes := 0, pos := 0 } := by
      unfold Presentation.ofConfig Presentation.current_cap
      cases files with
      | nil => rfl
      | cons n t =>
          have hn : n = 0 := by simpa using h
          simp [hn]
    rw [hc]
    rfl

/-- Witness for C8: a one-slide deck over a single zero-frame file. -/
theorem first_update_state_attribute_error_witness :
    (Presentation.ofConfig
      [{ type := SlideType.slide, start_animation := 0, end_animation := 1,
         number := 1, terminated := false }]
      [0]).update_state State.Playing = Except.error attrErr :=
  first_update_state_attribute_error
    [{ type := SlideType.slide, start_animation := 0, end_animation := 1,
       number := 1, terminated := false }]
    [0] State.Playing (by decide)

/-- Claim C4: on a loop slide in Playing whose read fails while sitting on
the slide's final segment (`end_animation = current_animation + 1`), the
animation index is reset to the slide's `start_animation`, that segment is
sought to its first frame, the slide index is unchanged and the returned
state is Playing; moreover a loop slide never yields Wait from a Playing
tick. -/
theorem loop_slide_loops :
    (∀ p : Presentation,
       p.current_slide.type = SlideType.loop →
       p.current_slide.end_animation = p.current_animation + 1 →
       (p.current_cap.read).1 = none →
       p.lastframe.isSome →
       stateOf (p.update_state State.Playing) = some State.Playing ∧
       ∀ q, presOf (p.update_state State.Playing) = some q →
         q.current_animation = p.current_slide.start_animation ∧
         (q.current_cap).pos = 0 ∧
         q.current_slide_i = p.current_slide_i) ∧
    (∀ (p : Presentation) (x : (Frame × State) × Presentation),
       p.current_slide.type = SlideType.loop →
       p.update_state State.Playing = Except.ok x → x.1.2 ≠ State.Wait) := by
  constructor
  · intro p ht hend hread hlf
    have hcs := readStep_current_slide p
    have hr1 : (p.readStep).1.isSome = false := by rw [readStep_fst, hread]; rfl
    have hlf1 : (p.readStep).2.lastframe.isSome := readStep_lastframe_isSome p hlf
    have heq : p.update_state State.Playing =
        (Presentation.rewind
          { (p.readStep).2 with
              current_animation := (p.readStep).2.current_slide.start_animation }).retLast
          State.Playing := by
      simp only [Presentation.update_state]
      rw [if_neg (by simp)]
      rw [if_neg (by rw [hcs, ht]; simp)]
      rw [if_pos hr1]
      rw [if_pos (by rw [hcs, readStep_anim]; exact hend)]
      rw [hcs, ht]
    have hlfr : (Presentation.rewind
        { (p.readStep).2 with
            current_animation := (p.readStep).2.current_slide.start_animation }).lastframe.isSome := by
      rw [rewind_lastframe]
      exact hlf1
    refine ⟨?_, ?_⟩
    · rw [heq]
      exact stateOf_retLast _ _ hlfr
    · intro q hq
      rw [heq, presOf_retLast _ _ hlfr] at hq
      have hq' : q = Presentation.rewind
          { (p.readStep).2 with
              current_animation := (p.readStep).2.current_slide.start_animation } :=
        (Option.some_inj.mp hq).symm
      subst hq'
      refine ⟨?_, rewind_current_cap_pos _, ?_⟩
      · rw [show (Presentation.rewind
            { (p.readStep).2 with
                current_animation := (p.readStep).2.current_slide.start_animation }).current_animation =
            (p.readStep).2.current_slide.start_animation from rfl, hcs]
      · rw [show (Presentation.rewind
            { (p.readStep).2 with
                current_animation := (p.readStep).2.current_slide.start_animation }).current_slide_i =
            (p.readStep).2.current_slide_i from rfl, readStep_slide_i]
  · intro p x ht hx
    have hcs := readStep_current_slide p
    have hPlay : x.1.2 = State.Playing := by
      simp only [Presentation.update_state] at hx
      rw [if_neg (by simp)] at hx
      rw [if_neg (by rw [hcs, ht]; simp)] at hx
      by_cases hr : (p.readStep).1.isSome = false
      · rw [if_pos hr] at hx
        by_cases hend : (p.readStep).2.current_slide.end_animation =
            (p.readStep).2.current_animation + 1
        · rw [if_pos hend] at hx
          rw [hcs, ht] at hx
          exact (retLast_ok _ _ _ hx).1
        · rw [if_neg hend] at hx
          rw [if_neg (by rw [hcs, ht]; simp)] at hx
          exact (retLast_ok _ _ _ hx).1
      · rw [if_neg hr] at hx
        exact (retLast_ok _ _ _ hx).1
    rw [hPlay]
    exact fun hcontra => absurd hcontra (by decide)

/-- Witness for C4 at `exLoop`: loop slide over segment 0, segment
exhausted. -/
theorem loop_slide_loops_witness :
    stateOf (exLoop.update_state State.Playing) = some State.Playing :=
  (loop_slide_loops.1 exLoop (by decide) (by decide) (by decide) (by decide)).1

/-- Claim C9: the final slide's `terminated` flag is cleared only by
`reset()` — `prev()`, `rewind()` and `next()` never clear it once set — so
after `next()` terminates the last slide, going back with `prev()` and
forward again with `next()` lands on the last slide with `terminated` still
true, and the following `update_state` in Playing yields Ended. -/
theorem terminated_only_cleared_by_reset :
    (∀ p : Presentation, lastTerminated p = true →
       lastTerminated p.prev = true ∧ lastTerminated p.rewind = true ∧
       lastTerminated p.next = true) ∧
    (∀ p : Presentation, lastTerminated p.reset = false) ∧
    (∀ p : Presentation,
       2 ≤ p.slides.length →
       p.current_slide_i = p.slides.length - 1 →
       p.current_slide.type = SlideType.last →
       (p.slides.getD (p.slides.length - 2) default).type ≠ SlideType.last →
       p.lastframe.isSome →
       (((p.next).prev).next).current_slide_i = p.slides.length - 1 ∧
       lastTerminated (((p.next).prev).next) = true ∧
       stateOf ((((p.next).prev).next).update_state State.Playing) =
         some State.End) := by
  refine ⟨?_, lastTerminated_reset, ?_⟩
  · intro p hterm
    have hn : 0 < p.slides.length := by
      by_contra h0
      have hnil : p.slides = [] := List.length_eq_zero.mp (by omega)
      have hfalse : lastTerminated p = false := by
        unfold lastTerminated
        rw [hnil]
        rfl
      rw [hfalse] at hterm
      exact absurd hterm (by decide)
    refine ⟨?_, ?_, ?_⟩
    · unfold lastTerminated
      rw [(prev_fields p).1]
      exact hterm
    · unfold lastTerminated
      rw [rewind_slides]
      exact hterm
    · by_cases htype : p.current_slide.type = SlideType.last
      · obtain ⟨hs, hi, hf⟩ := next_last_fields p htype
        unfold lastTerminated
        rw [hs, List.length_set]
        by_cases hidx : p.current_slide_i = p.slides.length - 1
        · rw [hidx, getD_set_self _ _ _ _ (by omega)]
        · rw [getD_set_ne _ _ _ _ _ hidx]
          exact hterm
      · obtain ⟨hs, hi, hf⟩ := next_notlast_fields p htype
        unfold lastTerminated
        rw [hs]
        exact hterm
  · intro p hn hi ht hb hlf
    have hne : p.slides.length - 1 ≠ p.slides.length - 2 := by omega
    obtain ⟨h1s, h1i, h1f⟩ := next_last_fields p ht
    obtain ⟨h2s, h2i, h2f⟩ := prev_fields p.next
    have h2i' : ((p.next).prev).current_slide_i = p.slides.length - 2 := by
      rw [h2i, h1i, hi]
      omega
    have h2s' : ((p.next).prev).slides =
        p.slides.set (p.slides.length - 1)
          { p.current_slide with terminated := true } := by
      rw [h2s, h1s, hi]
    have hcs2 : ((p.next).prev).current_slide =
        p.slides.getD (p.slides.length - 2) default := by
      unfold Presentation.current_slide
      rw [h2s', h2i', getD_set_ne _ _ _ _ _ hne]
    have hB : ¬(((p.next).prev).current_slide.type = SlideType.last) := by
      rw [hcs2]
      exact hb
    obtain ⟨h3s, h3i, h3f⟩ := next_notlast_fields ((p.next).prev) hB
    have hlen2 : ((p.next).prev).slides.length = p.slides.length := by
      rw [h2s']
      simp
    have h3i' : (((p.next).prev).next).current_slide_i = p.slides.length - 1 := by
      rw [h3i, hlen2, h2i']
      omega
    have h3s' : (((p.next).prev).next).slides =
        p.slides.set (p.slides.length - 1)
          { p.current_slide with terminated := true } := by
      rw [h3s, h2s']
    have hcs3 : (((p.next).prev).next).current_slide =
        { p.current_slide with terminated := true } := by
      unfold Presentation.current_slide
      rw [h3s', h3i']
      exact getD_set_self _ _ _ _ (by omega)
    have hlf3 : (((p.next).prev).next).lastframe.isSome := by
      rw [h3f, h2f, h1f]
      exact hlf
    refine ⟨h3i', ?_, ?_⟩
    · unfold lastTerminated
      rw [h3s', List.length_set, getD_set_self _ _ _ _ (by omega)]
    · refine end_of_terminated _ ?_ ?_ hlf3
      · rw [hcs3]
        exact ht
      · rw [hcs3]

/-- Witness for C9: flag preservation at the already terminated `exTerm`,
the full next/prev/next round trip at `exDeckA`. -/
theorem terminated_only_cleared_by_reset_witness :
    lastTerminated exTerm.prev = true ∧
    (((exDeckA.next).prev).next).current_slide_i = 1 ∧
    stateOf ((((exDeckA.next).prev).next).update_state State.Playing) =
      some State.End := by
  have h1 := (terminated_only_cleared_by_reset.1 exTerm (by decide)).1
  have h3 := terminated_only_cleared_by_reset.2.2 exDeckA (by decide) (by decide)
    (by decide) (by decide) (by decide)
  exact ⟨h1, h3.1, h3.2.2⟩

end ManimPresentation
